import Mathlib

/-!
Verification of the pluggedinkit-python SDK core against its specification.

The development shallowly embeds the two nontrivial components of the SDK:
the RAG response normalizer (`services/rag.py`) and the clipboard service
(`services/clipboard.py`).  Python/JSON values are modelled by `PyValue`;
Python dictionaries by association lists with first-match lookup; fallible
Python code by `Except`/`Option` results.  The HTTP transport client is an
opaque function from requests to decoded JSON bodies, so that "no network
call is made" is expressed as independence from the transport argument.

The `types.py` and `exceptions.py` modules of the repository are not part
of the sources under verification; where their behavior is needed (enum
wire values, pydantic argument validators, record field defaults) the
definitions below carry a doc comment starting "Modelled from the spec:".
-/

set_option maxHeartbeats 1000000

/-- A JSON-like runtime value as handled by the Python SDK: Python `None`,
booleans, integers, strings, lists and string-keyed dictionaries. -/
inductive PyValue where
  | null
  | bool (b : Bool)
  | num (n : Int)
  | str (s : String)
  | arr (elems : List PyValue)
  | obj (fields : List (String × PyValue))

/-- Python truthiness of a `PyValue`: `None`, `False`, `0`, `""`, `[]` and
an empty dict are falsy, everything else is truthy. -/
def PyValue.truthy : PyValue → Bool
  | .null => false
  | .bool b => b
  | .num n => n != 0
  | .str s => !s.isEmpty
  | .arr elems => !elems.isEmpty
  | .obj fields => !fields.isEmpty

/-- Recognizer for string values (Python `isinstance(x, str)`). -/
def PyValue.isStr : PyValue → Bool
  | .str _ => true
  | _ => false

/-- Recognizer for dictionary values (Python `isinstance(x, dict)`). -/
def PyValue.isObj : PyValue → Bool
  | .obj _ => true
  | _ => false

/-- View a `PyValue` as a list; `none` when it is not a JSON array. -/
def PyValue.asArr : PyValue → Option (List PyValue)
  | .arr elems => some elems
  | _ => none

/-- Python `a or b`: `a` when truthy, otherwise `b`. -/
def pyOr (a b : PyValue) : PyValue := if a.truthy then a else b

/-- Python `d.get(key, dflt)` on a dictionary modelled as an association
list (first occurrence of a key wins, as keys of a dict are unique). -/
def dictGetD (fields : List (String × PyValue)) (key : String) (dflt : PyValue) : PyValue :=
  match fields.lookup key with
  | some v => v
  | none => dflt

/-- Python `d.get(key)`: `None` when the key is absent. -/
def dictGet (fields : List (String × PyValue)) (key : String) : PyValue :=
  dictGetD fields key .null

/-- Python `int(v)` on a JSON value: integers pass through, booleans map to
1/0, decimal strings parse, everything else is a runtime error (`none`). -/
def pyInt : PyValue → Option Int
  | .num n => some n
  | .bool b => some (if b then 1 else 0)
  | .str s => s.toInt?
  | _ => none

/-- The `RagSourceDocument` record from `types.py` as used by the
normalizer: a document id paired with a display name.  Field values are
kept as raw `PyValue`s since the transform passes them through untouched. -/
structure RagSourceDocument where
  id : PyValue
  name : PyValue

/-- The `RagResponse` record produced by `RagService._transform_rag_response`.
Modelled from the spec: `types.py` is not among the sources, so the record
mirrors spec section 3 — optional fields default to `None` (`.null`) and
sequence fields to the empty list when a constructor call omits them. -/
structure RagResponse where
  success : PyValue
  answer : PyValue
  sources : List PyValue := []
  document_ids : List PyValue := []
  documents : List RagSourceDocument := []
  error : PyValue := .null

/-- The document list built in `rag.py` lines 147-153: `document_ids` is
enumerated and the i-th document takes its name from `sources[i]` when that
index exists, else the placeholder string `"Document "` followed by the
1-indexed position. -/
def mkDocuments (document_ids sources : List PyValue) : List RagSourceDocument :=
  document_ids.enum.map fun p =>
    { id := p.2
      name := sources.getD p.1 (.str ("Document " ++ toString (p.1 + 1))) }

/-- `RagService._transform_rag_response` (`rag.py` lines 119-162).  A bare
string synthesizes a successful response; a dictionary is normalized field
by field; anything else yields the fixed format-error response.  The result
is `none` only when the dictionary's `sources` / `documentIds` values are
truthy non-arrays, where the Python list operations would leave the JSON
data model (duck-typed indexing); all inputs the spec speaks about are
covered. -/
def _transform_rag_response (data : PyValue) : Option RagResponse :=
  match data with
  | .str s =>
      some { success := .bool true
             answer := .str s
             sources := []
             document_ids := []
             documents := [] }
  | .obj fields =>
      let answer :=
        pyOr (dictGet fields "answer")
          (pyOr (dictGet fields "response")
            (pyOr (dictGet fields "results")
              (pyOr (dictGet fields "message") (.str ""))))
      match (pyOr (dictGet fields "sources") (.arr [])).asArr,
            (pyOr (pyOr (dictGet fields "documentIds") (dictGet fields "document_ids"))
              (.arr [])).asArr with
      | some sources, some document_ids =>
          some { success := dictGetD fields "success" (.bool true)
                 answer := answer
                 sources := sources
                 document_ids := document_ids
                 documents := mkDocuments document_ids sources
                 error := dictGet fields "error" }
      | _, _ => none
  | _ =>
      some { success := .bool false
             answer := .null
             error := .str "Unexpected response format from RAG query endpoint" }

/-- An HTTP request as issued through the transport client: method, path,
query parameters and JSON body.  Responses are decoded JSON bodies. -/
structure HttpRequest where
  method : String
  path : String
  params : List (String × String) := []
  body : List (String × PyValue) := []

/-- A clipboard transport: the opaque client the service calls.  Per spec
section 6 every clipboard endpoint answers with a `success` envelope, so
the decoded response body is a dictionary. -/
def Transport : Type := HttpRequest → List (String × PyValue)

/-- The errors the clipboard service can raise: `valueError` models Python
`ValueError` (and its pydantic validation subclasses), raised locally
before any network call; `pluggedInError` models the SDK's typed service
error, carrying the (JSON) message taken from the server envelope. -/
inductive SdkError where
  | valueError (msg : String)
  | pluggedInError (msg : PyValue)

/-- Modelled from the spec: the `ClipboardEncoding` wire enum lives in
`types.py`, which is not among the sources; spec section 3 gives
`enum(utf8, ...)` with UTF-8 as the default. -/
inductive ClipboardEncoding where
  | utf8
  | base64

/-- Modelled from the spec: wire string of a `ClipboardEncoding`. -/
def ClipboardEncoding.value : ClipboardEncoding → String
  | .utf8 => "utf-8"
  | .base64 => "base64"

/-- Modelled from the spec: `ClipboardEncoding(s)` — decode a raw wire
string, rejecting unknown values at the boundary (spec section 9). -/
def ClipboardEncoding.ofValue (s : String) : Option ClipboardEncoding :=
  if s = "utf-8" then some .utf8
  else if s = "base64" then some .base64
  else none

/-- Modelled from the spec: the `ClipboardVisibility` wire enum from
`types.py` (not among the sources); spec section 3 gives
`enum(private, shared, ...)` with private as the default. -/
inductive ClipboardVisibility where
  | priv
  | shared

/-- Modelled from the spec: wire string of a `ClipboardVisibility`. -/
def ClipboardVisibility.value : ClipboardVisibility → String
  | .priv => "private"
  | .shared => "shared"

/-- Modelled from the spec: `ClipboardVisibility(s)` — decode a raw wire
string, rejecting unknown values. -/
def ClipboardVisibility.ofValue (s : String) : Option ClipboardVisibility :=
  if s = "private" then some .priv
  else if s = "shared" then some .shared
  else none

/-- Modelled from the spec: the `ClipboardSource` writer-identity enum from
`types.py` (not among the sources).  Only the SDK's own tag is relevant:
the payload builder hardcodes `ClipboardSource.SDK.value`. -/
inductive ClipboardSource where
  | sdk

/-- Modelled from the spec: wire string of a `ClipboardSource`. -/
def ClipboardSource.value : ClipboardSource → String
  | .sdk => "sdk"

/-- An encoding argument as accepted by the Python API:
`Union[ClipboardEncoding, str]`. -/
inductive EncodingArg where
  | enum (e : ClipboardEncoding)
  | raw (s : String)

/-- A visibility argument as accepted by the Python API:
`Union[ClipboardVisibility, str]`. -/
inductive VisibilityArg where
  | enum (v : ClipboardVisibility)
  | raw (s : String)

/-- `_normalize_encoding` (`clipboard.py` lines 30-36): enum values pass
through, raw strings are decoded, unknown strings raise `ValueError`. -/
def _normalize_encoding : EncodingArg → Except String ClipboardEncoding
  | .enum e => .ok e
  | .raw s =>
      match ClipboardEncoding.ofValue s with
      | some e => .ok e
      | none => .error (s ++ " is not a valid ClipboardEncoding")

/-- `_normalize_visibility` (`clipboard.py` lines 39-45). -/
def _normalize_visibility : VisibilityArg → Except String ClipboardVisibility
  | .enum v => .ok v
  | .raw s =>
      match ClipboardVisibility.ofValue s with
      | some v => .ok v
      | none => .error (s ++ " is not a valid ClipboardVisibility")

/-- Truthiness of a Python `Optional[str]`: `None` and `""` are falsy. -/
def optStrTruthy : Option String → Bool
  | some s => !s.isEmpty
  | none => false

/-- One `if arg: payload[key] = arg` step of the payload builder: the key
is added exactly when the optional string argument is truthy. -/
def optEntry (key : String) (v : Option String) : List (String × PyValue) :=
  match v with
  | some s => if s.isEmpty then [] else [(key, .str s)]
  | none => []

/-- `_build_clipboard_payload` (`clipboard.py` lines 48-85): normalize the
encoding and visibility arguments, lay down the five unconditional fields
(`source` is hardcoded to the SDK tag), append `name` and the attribution
fields when truthy, and validate/append `ttlSeconds` last.  `.error`
models the `ValueError` raised before any request is made. -/
def _build_clipboard_payload (value : String) (name : Option String)
    (content_type : String) (encoding : EncodingArg) (visibility : VisibilityArg)
    (created_by_tool : Option String) (created_by_model : Option String)
    (ttl_seconds : Option Int) : Except String (List (String × PyValue)) :=
  match _normalize_encoding encoding, _normalize_visibility visibility with
  | .error e, _ => .error e
  | .ok _, .error e => .error e
  | .ok ne, .ok nv =>
      let payload : List (String × PyValue) :=
        [("value", .str value),
         ("contentType", .str content_type),
         ("encoding", .str ne.value),
         ("visibility", .str nv.value),
         ("source", .str ClipboardSource.sdk.value)]
        ++ optEntry "name" name
        ++ optEntry "createdByTool" created_by_tool
        ++ optEntry "createdByModel" created_by_model
      match ttl_seconds with
      | none => .ok payload
      | some t =>
          if t ≤ 0 then .error "ttl_seconds must be greater than 0 when provided"
          else .ok (payload ++ [("ttlSeconds", .num t)])

/-- `_parse_list_response` (`clipboard.py` lines 88-92): require a truthy
`success`, else raise with the server message or the default; on success
hand back the `entries` value (the `ClipboardListResponse` pydantic decode
lives in `types.py`, outside the sources, and passes fields through). -/
def _parse_list_response (data : List (String × PyValue)) : Except SdkError PyValue :=
  if !(dictGet data "success").truthy then
    .error (.pluggedInError (dictGetD data "error" (.str "Failed to list clipboard entries")))
  else
    .ok (dictGet data "entries")

/-- `_parse_entry_response` (`clipboard.py` lines 95-124): on a falsy
`success` envelope either raise (strict mode) with the server-supplied
`error` value or the default message, or return absence (lenient mode);
on success require a present truthy `entry`, with the same fallback. -/
def _parse_entry_response (data : List (String × PyValue)) (error_msg : String)
    (raise_on_failure : Bool) : Except SdkError (Option PyValue) :=
  if !(dictGet data "success").truthy then
    if raise_on_failure then
      .error (.pluggedInError (dictGetD data "error" (.str error_msg)))
    else
      .ok none
  else if (data.lookup "entry").isSome && (dictGet data "entry").truthy then
    .ok (some (dictGet data "entry"))
  else if raise_on_failure then
    .error (.pluggedInError (dictGetD data "error" (.str error_msg)))
  else
    .ok none

/-- `_parse_delete_response` (`clipboard.py` lines 127-136): a falsy
`success` yields 0; otherwise the `deleted` field (defaulting to 0 when
absent) is coerced with `int(...)` unless it is `None`, which yields 0.
`.error` models the `ValueError`/`TypeError` of `int` on a non-numeric. -/
def _parse_delete_response (data : List (String × PyValue)) : Except SdkError Int :=
  if !(dictGet data "success").truthy then
    .ok 0
  else
    match dictGetD data "deleted" (.num 0) with
    | .null => .ok 0
    | v =>
        match pyInt v with
        | some n => .ok n
        | none => .error (.valueError "invalid literal for int")

/-- `_build_get_params` (`clipboard.py` lines 139-146). -/
def _build_get_params (name : Option String) (idx : Option Int) : List (String × String) :=
  (match name with
   | some n => [("name", n)]
   | none => [])
  ++ (match idx with
      | some i => [("idx", toString i)]
      | none => [])

/-- `_build_delete_payload` (`clipboard.py` lines 149-156). -/
def _build_delete_payload (name : Option String) (idx : Option Int) : List (String × PyValue) :=
  (match name with
   | some n => [("name", .str n)]
   | none => [])
  ++ (match idx with
      | some i => [("idx", .num i)]
      | none => [])

/-- Modelled from the spec: `ClipboardGetFilters` is a pydantic model in
`types.py`, which is not among the sources.  Spec section 4.3: exactly one
of `name` and `idx` is required; a validation error (a `ValueError`-class
pydantic error) if both or neither are given. -/
def ClipboardGetFilters.validate (name : Option String) (idx : Option Int) :
    Except SdkError Unit :=
  match name, idx with
  | none, none => .error (.valueError "Either name or idx must be provided")
  | some _, some _ => .error (.valueError "Only one of name or idx may be provided")
  | _, _ => .ok ()

/-- Modelled from the spec: `ClipboardDeleteRequest` is a pydantic model in
`types.py`, which is not among the sources; the same exactly-one-of
validation as `ClipboardGetFilters` (spec sections 4.3 and 8). -/
def ClipboardDeleteRequest.validate (name : Option String) (idx : Option Int) :
    Except SdkError Unit :=
  match name, idx with
  | none, none => .error (.valueError "Either name or idx must be provided")
  | some _, some _ => .error (.valueError "Only one of name or idx may be provided")
  | _, _ => .ok ()

/-- The `ClearAllResult` dataclass (`clipboard.py` lines 164-184). -/
structure ClearAllResult where
  deleted : Int
  failed : Int

/-- `ClearAllResult.total`: total entries attempted. -/
def ClearAllResult.total (r : ClearAllResult) : Int := r.deleted + r.failed

/-- `ClearAllResult.success`: true when every entry was deleted. -/
def ClearAllResult.success (r : ClearAllResult) : Bool := r.failed == 0

/-- `ClipboardService.get` (`clipboard.py` lines 213-239): validate the
addressing arguments, then issue a GET and parse the entry leniently. -/
def ClipboardService.get (transport : Transport) (name : Option String)
    (idx : Option Int) : Except SdkError (Option PyValue) :=
  match ClipboardGetFilters.validate name idx with
  | .error e => .error e
  | .ok _ =>
      _parse_entry_response
        (transport { method := "GET", path := "/api/clipboard",
                     params := _build_get_params name idx })
        "Failed to get clipboard entry" false

/-- `ClipboardService.set` (`clipboard.py` lines 241-290): build the named
payload (its `ValueError`s surface before any request), POST it, and parse
the entry strictly. -/
def ClipboardService.set (transport : Transport) (name : String) (value : String)
    (content_type : String) (encoding : EncodingArg) (visibility : VisibilityArg)
    (created_by_tool : Option String) (created_by_model : Option String)
    (ttl_seconds : Option Int) : Except SdkError PyValue :=
  match _build_clipboard_payload value (some name) content_type encoding visibility
      created_by_tool created_by_model ttl_seconds with
  | .error e => .error (.valueError e)
  | .ok payload =>
      match _parse_entry_response
          (transport { method := "POST", path := "/api/clipboard", body := payload })
          "Failed to set clipboard entry" true with
      | .error e => .error e
      | .ok (some entry) => .ok entry
      | .ok none => .error (.valueError "assertion failed: result is not None")

/-- `ClipboardService.push` (`clipboard.py` lines 292-337): like `set`
but with `name` omitted and the stack endpoint. -/
def ClipboardService.push (transport : Transport) (value : String)
    (content_type : String) (encoding : EncodingArg) (visibility : VisibilityArg)
    (created_by_tool : Option String) (created_by_model : Option String)
    (ttl_seconds : Option Int) : Except SdkError PyValue :=
  match _build_clipboard_payload value none content_type encoding visibility
      created_by_tool created_by_model ttl_seconds with
  | .error e => .error (.valueError e)
  | .ok payload =>
      match _parse_entry_response
          (transport { method := "POST", path := "/api/clipboard/push", body := payload })
          "Failed to push to clipboard" true with
      | .error e => .error e
      | .ok (some entry) => .ok entry
      | .ok none => .error (.valueError "assertion failed: result is not None")

/-- `ClipboardService.pop` (`clipboard.py` lines 339-350). -/
def ClipboardService.pop (transport : Transport) : Except SdkError (Option PyValue) :=
  _parse_entry_response
    (transport { method := "POST", path := "/api/clipboard/pop" })
    "Failed to pop from clipboard" false

/-- `ClipboardService.delete` (`clipboard.py` lines 352-374): validate the
addressing arguments, then DELETE and return the normalized count. -/
def ClipboardService.delete (transport : Transport) (name : Option String)
    (idx : Option Int) : Except SdkError Int :=
  match ClipboardDeleteRequest.validate name idx with
  | .error e => .error e
  | .ok _ =>
      _parse_delete_response
        (transport { method := "DELETE", path := "/api/clipboard",
                     body := _build_delete_payload name idx })

/-- The single bulk-delete request issued by `clear_all`. -/
def clearAllRequest : HttpRequest :=
  { method := "DELETE", path := "/api/clipboard", body := [("clearAll", .bool true)] }

/-- `ClipboardService.clear_all` (`clipboard.py` lines 376-396): one bulk
DELETE with the `clearAll` flag; raise on a falsy `success` envelope, else
wrap the server's `deleted` count with `failed := 0`.  The outer `Option`
is `none` only when the envelope carries a non-integer truthy-success
`deleted` value, which the Python code would store unchecked in the
`int`-annotated dataclass field, leaving the data model. -/
def ClipboardService.clear_all (transport : Transport) :
    Option (Except SdkError ClearAllResult) :=
  let data := transport clearAllRequest
  if !(dictGet data "success").truthy then
    some (.error (.pluggedInError (dictGetD data "error" (.str "Failed to clear clipboard"))))
  else
    match dictGetD data "deleted" (.num 0) with
    | .num n => some (.ok { deleted := n, failed := 0 })
    | _ => none

/-- Python list slicing `xs[:stop]` for a possibly negative `stop`: a
nonnegative stop takes that many elements; a negative stop drops the last
`|stop|` elements (clamping at the empty list). -/
def pySliceTo {α : Type} (xs : List α) (stop : Int) : List α :=
  if 0 ≤ stop then xs.take stop.toNat
  else xs.take (xs.length - (-stop).toNat)

/-- The RAG query request body (`rag.py` lines 20-25). -/
def ragQueryRequest (query : String) (include_metadata : Bool) : HttpRequest :=
  { method := "POST", path := "/api/rag/query",
    body := [("query", .str query), ("includeMetadata", .bool include_metadata)] }

/-- A RAG transport: `/api/rag/query` may answer JSON or plain text
(`_parse_rag_response`, `rag.py` lines 112-117, maps text to a bare
string), so the decoded response is an arbitrary `PyValue`. -/
def RagTransport : Type := HttpRequest → PyValue

/-- `RagService.query` (`rag.py` lines 18-27): POST the query and run the
response through the normalizer. -/
def RagService.query (transport : RagTransport) (query : String)
    (include_metadata : Bool) : Option RagResponse :=
  _transform_rag_response (transport (ragQueryRequest query include_metadata))

/-- `RagService.find_relevant_documents` (`rag.py` lines 54-66): query with
metadata, raise a `PluggedInError` with the response's error (or the
default message) whenever `success` is falsy, else return
`documents[:limit]`. -/
def RagService.find_relevant_documents (transport : RagTransport) (query : String)
    (limit : Int) : Option (Except SdkError (List RagSourceDocument)) :=
  (RagService.query transport query true).map fun response =>
    if !response.success.truthy then
      .error (.pluggedInError (pyOr response.error (.str "Failed to search documents")))
    else
      .ok (pySliceTo response.documents limit)

/-- The normalized response for the spec section 8 example input
`(documentIds = [d1, d2], sources = [s1])`, used to instantiate the
positional-zip theorem on a concrete envelope. -/
def ragZipExample : RagResponse :=
  { success := .bool true
    answer := .str ""
    sources := [.str "s1"]
    document_ids := [.str "d1", .str "d2"]
    documents := [{ id := .str "d1", name := .str "s1" },
                  { id := .str "d2", name := .str "Document 2" }]
    error := .null }

/-- The normalized response for a five-document envelope without sources,
used to instantiate the document-limit theorem on a concrete input. -/
def ragFiveDocs : RagResponse :=
  { success := .bool true
    answer := .str ""
    sources := []
    document_ids := [.str "a", .str "b", .str "c", .str "d", .str "e"]
    documents := [{ id := .str "a", name := .str "Document 1" },
                  { id := .str "b", name := .str "Document 2" },
                  { id := .str "c", name := .str "Document 3" },
                  { id := .str "d", name := .str "Document 4" },
                  { id := .str "e", name := .str "Document 5" }]
    error := .null }

theorem lookup_append {α β : Type} [BEq α] (l₁ l₂ : List (α × β)) (k : α) :
    (l₁ ++ l₂).lookup k = ((l₁.lookup k).or (l₂.lookup k)) := by
  induction l₁ with
  | nil => simp [List.lookup]
  | cons p t ih =>
      cases p with
      | mk a b =>
          simp only [List.cons_append, List.lookup]
          cases k == a <;> simp [ih]

theorem mkDocuments_length (ids sources : List PyValue) :
    (mkDocuments ids sources).length = ids.length := by
  simp [mkDocuments, List.enum_length]

theorem mkDocuments_get (ids sources : List PyValue) (i : Nat)
    (h2 : i < (mkDocuments ids sources).length) (h1 : i < ids.length) :
    (mkDocuments ids sources).get ⟨i, h2⟩ =
      { id := ids.get ⟨i, h1⟩
        name := sources.getD i (.str ("Document " ++ toString (i + 1))) } := by
  simp [mkDocuments, List.get_eq_getElem, List.getElem_map, List.getElem_enum]

/-- C1: for every JSON-mapping input that the normalizer transforms, the
`documents` list has exactly one element per element of `document_ids`, and
the i-th document pairs `document_ids[i]` with `sources[i]` when that index
exists, else with the 1-indexed placeholder name. -/
theorem rag_documents_zip (fields : List (String × PyValue)) (r : RagResponse)
    (h : _transform_rag_response (.obj fields) = some r) :
    r.documents.length = r.document_ids.length ∧
    ∀ (i : Nat) (h1 : i < r.document_ids.length) (h2 : i < r.documents.length),
      r.documents.get ⟨i, h2⟩ =
        { id := r.document_ids.get ⟨i, h1⟩
          name := r.sources.getD i (.str ("Document " ++ toString (i + 1))) } := by
  unfold _transform_rag_response at h
  cases hs : (pyOr (dictGet fields "sources") (.arr [])).asArr with
  | none => simp [hs] at h
  | some sources =>
      cases hd : (pyOr (pyOr (dictGet fields "documentIds") (dictGet fields "document_ids"))
          (.arr [])).asArr with
      | none => simp [hs, hd] at h
      | some ids =>
          simp only [hs, hd, Option.some.injEq] at h
          subst h
          refine ⟨mkDocuments_length ids sources, ?_⟩
          intro i h1 h2
          exact mkDocuments_get ids sources i h2 h1

theorem rag_documents_zip_witness :
    _transform_rag_response
        (.obj [("documentIds", .arr [.str "d1", .str "d2"]),
               ("sources", .arr [.str "s1"])]) = some ragZipExample ∧
    ragZipExample.documents.length = ragZipExample.document_ids.length ∧
    ragZipExample.documents.get ⟨1, by decide⟩ =
      { id := .str "d2", name := .str "Document 2" } := by
  refine ⟨rfl, ?_, ?_⟩
  · exact (rag_documents_zip
      [("documentIds", .arr [.str "d1", .str "d2"]), ("sources", .arr [.str "s1"])]
      ragZipExample rfl).1
  · exact (rag_documents_zip
      [("documentIds", .arr [.str "d1", .str "d2"]), ("sources", .arr [.str "s1"])]
      ragZipExample rfl).2 1 (by decide) (by decide)

/-- C2: on JSON-mapping inputs the `answer` field is the first truthy value
among the alias keys `answer`, `response`, `results`, `message`, defaulting
to the empty string; `success` defaults to true when the key is absent; the
input's `error` value passes through unchanged (absent mapping to `None`);
and the empty mapping normalizes to the empty-answer success response. -/
theorem rag_answer_precedence (fields : List (String × PyValue)) (r : RagResponse)
    (h : _transform_rag_response (.obj fields) = some r) :
    (r.answer =
      (if (dictGet fields "answer").truthy then dictGet fields "answer"
       else if (dictGet fields "response").truthy then dictGet fields "response"
       else if (dictGet fields "results").truthy then dictGet fields "results"
       else if (dictGet fields "message").truthy then dictGet fields "message"
       else .str "")) ∧
    (fields.lookup "success" = none → r.success = .bool true) ∧
    r.error = dictGet fields "error" ∧
    _transform_rag_response (.obj []) =
      some { success := .bool true, answer := .str "", sources := [],
             document_ids := [], documents := [], error := .null } := by
  unfold _transform_rag_response at h
  cases hs : (pyOr (dictGet fields "sources") (.arr [])).asArr with
  | none => simp [hs] at h
  | some sources =>
      cases hd : (pyOr (pyOr (dictGet fields "documentIds") (dictGet fields "document_ids"))
          (.arr [])).asArr with
      | none => simp [hs, hd] at h
      | some ids =>
          simp only [hs, hd, Option.some.injEq] at h
          subst h
          refine ⟨by simp [pyOr], ?_, rfl, rfl⟩
          intro habs
          simp [dictGetD, habs]

theorem rag_answer_precedence_witness :
    _transform_rag_response (.obj [("response", .str "r"), ("error", .str "e")]) =
      some { success := .bool true, answer := .str "r", sources := [],
             document_ids := [], documents := [], error := .str "e" } ∧
    PyValue.str "r" =
      (if (dictGet [("response", .str "r"), ("error", .str "e")] "answer").truthy
       then dictGet [("response", .str "r"), ("error", .str "e")] "answer"
       else if (dictGet [("response", .str "r"), ("error", .str "e")] "response").truthy
       then dictGet [("response", .str "r"), ("error", .str "e")] "response"
       else if (dictGet [("response", .str "r"), ("error", .str "e")] "results").truthy
       then dictGet [("response", .str "r"), ("error", .str "e")] "results"
       else if (dictGet [("response", .str "r"), ("error", .str "e")] "message").truthy
       then dictGet [("response", .str "r"), ("error", .str "e")] "message"
       else .str "") := by
  refine ⟨rfl, ?_⟩
  exact (rag_answer_precedence [("response", .str "r"), ("error", .str "e")]
    { success := .bool true, answer := .str "r", sources := [],
      document_ids := [], documents := [], error := .str "e" } rfl).1

/-- C3: a bare-string input synthesizes the fixed successful response
carrying the string as the answer, and every input that is neither a
string nor a mapping normalizes (without raising) to a failure response
with the unexpected-response-format error message. -/
theorem rag_nonjson_handling (s : String) (v : PyValue)
    (hs : v.isStr = false) (ho : v.isObj = false) :
    _transform_rag_response (.str s) =
      some { success := .bool true, answer := .str s, sources := [],
             document_ids := [], documents := [], error := .null } ∧
    _transform_rag_response v =
      some { success := .bool false, answer := .null, sources := [],
             document_ids := [], documents := [],
             error := .str "Unexpected response format from RAG query endpoint" } := by
  refine ⟨rfl, ?_⟩
  cases v <;> simp_all [_transform_rag_response, PyValue.isStr, PyValue.isObj]

theorem optEntry_lookup_isSome (k : String) (v : Option String) :
    ((optEntry k v).lookup k).isSome = optStrTruthy v := by
  cases v with
  | none => rfl
  | some s =>
      by_cases h : s.isEmpty <;>
        simp [optEntry, optStrTruthy, h, List.lookup]

theorem optEntry_lookup_ne (k k' : String) (v : Option String)
    (h : (k' == k) = false) : (optEntry k v).lookup k' = none := by
  cases v with
  | none => rfl
  | some s =>
      by_cases he : s.isEmpty <;> simp [optEntry, he, List.lookup, h]

theorem isSome_or {α : Type} (a b : Option α) :
    (a.or b).isSome = (a.isSome || b.isSome) := by
  cases a <;> simp

/-- The key/value facts shared by every payload produced by
`_build_clipboard_payload`, stated over an arbitrary trailing segment (the
empty tail, or the `ttlSeconds` entry). -/
theorem payload_lookup_facts (value content_type : String) (ne : ClipboardEncoding)
    (nv : ClipboardVisibility) (name tool model : Option String)
    (tail : List (String × PyValue)) (p : List (String × PyValue))
    (h1 : tail.lookup "name" = none)
    (h2 : tail.lookup "createdByTool" = none)
    (h3 : tail.lookup "createdByModel" = none)
    (hp : p =
      ([("value", PyValue.str value),
        ("contentType", PyValue.str content_type),
        ("encoding", PyValue.str ne.value),
        ("visibility", PyValue.str nv.value),
        ("source", PyValue.str ClipboardSource.sdk.value)]
       ++ optEntry "name" name
       ++ optEntry "createdByTool" tool
       ++ optEntry "createdByModel" model) ++ tail) :
    p.lookup "value" = some (.str value) ∧
    p.lookup "contentType" = some (.str content_type) ∧
    p.lookup "encoding" = some (.str ne.value) ∧
    p.lookup "visibility" = some (.str nv.value) ∧
    p.lookup "source" = some (.str ClipboardSource.sdk.value) ∧
    (p.lookup "name").isSome = optStrTruthy name ∧
    (p.lookup "createdByTool").isSome = optStrTruthy tool ∧
    (p.lookup "createdByModel").isSome = optStrTruthy model := by
  subst hp
  refine ⟨?_, ?_, ?_, ?_, ?_, ?_, ?_, ?_⟩
  · simp [lookup_append, List.lookup]
  · simp [lookup_append, List.lookup]
  · simp [lookup_append, List.lookup]
  · simp [lookup_append, List.lookup]
  · simp [lookup_append, List.lookup]
  · simp [lookup_append, List.lookup, isSome_or, h1,
      optEntry_lookup_ne "createdByTool" "name" tool (by decide),
      optEntry_lookup_ne "createdByModel" "name" model (by decide),
      optEntry_lookup_isSome]
  · simp [lookup_append, List.lookup, isSome_or, h2,
      optEntry_lookup_ne "name" "createdByTool" name (by decide),
      optEntry_lookup_ne "createdByModel" "createdByTool" model (by decide),
      optEntry_lookup_isSome]
  · simp [lookup_append, List.lookup, isSome_or, h3,
      optEntry_lookup_ne "name" "createdByModel" name (by decide),
      optEntry_lookup_ne "createdByTool" "createdByModel" tool (by decide),
      optEntry_lookup_isSome]

theorem rag_nonjson_handling_witness :
    PyValue.isStr (.num 42) = false ∧
    _transform_rag_response (.str "plain answer") =
      some { success := .bool true, answer := .str "plain answer", sources := [],
             document_ids := [], documents := [], error := .null } ∧
    _transform_rag_response (.num 42) =
      some { success := .bool false, answer := .null, sources := [],
             document_ids := [], documents := [],
             error := .str "Unexpected response format from RAG query endpoint" } :=
  ⟨rfl, (rag_nonjson_handling "plain answer" (.num 42) rfl rfl).1,
    (rag_nonjson_handling "plain answer" (.num 42) rfl rfl).2⟩

/-- C4 counterexample: supplying `created_by_tool` as the empty string is
an accepted argument combination (the build succeeds), yet the produced
payload omits the `createdByTool` key — the code includes the attribution
keys only when the argument is truthy, not whenever it is supplied. -/
theorem clipboard_payload_attribution_counterexample :
    (_build_clipboard_payload "v" none "text/plain" (.enum .utf8) (.enum .priv)
        (some "") none none).toOption.isSome = true ∧
    ((_build_clipboard_payload "v" none "text/plain" (.enum .utf8) (.enum .priv)
        (some "") none none).toOption.map
      fun p => (p.lookup "createdByTool").isSome) = some false :=
  ⟨rfl, rfl⟩

/-- C4 (amended): every accepted argument combination produces a payload
carrying `value`, `contentType`, `encoding` and `visibility` (the given,
normalized values — the callers' defaults being text/plain, UTF-8 and
private) and `source` fixed to the SDK identity tag, which is not a
parameter of the builder and hence beyond caller control; the `name` key
is present iff `name` is truthy (supplied and non-empty), and the
`createdByTool` / `createdByModel` keys are present iff the corresponding
argument is supplied and non-empty. -/
theorem clipboard_payload_shape (value content_type : String)
    (name : Option String) (encoding : EncodingArg) (visibility : VisibilityArg)
    (tool model : Option String) (ttl : Option Int)
    (ne : ClipboardEncoding) (nv : ClipboardVisibility)
    (p : List (String × PyValue))
    (hne : _normalize_encoding encoding = .ok ne)
    (hnv : _normalize_visibility visibility = .ok nv)
    (hp : _build_clipboard_payload value name content_type encoding visibility
        tool model ttl = .ok p) :
    p.lookup "value" = some (.str value) ∧
    p.lookup "contentType" = some (.str content_type) ∧
    p.lookup "encoding" = some (.str ne.value) ∧
    p.lookup "visibility" = some (.str nv.value) ∧
    p.lookup "source" = some (.str ClipboardSource.sdk.value) ∧
    (p.lookup "name").isSome = optStrTruthy name ∧
    (p.lookup "createdByTool").isSome = optStrTruthy tool ∧
    (p.lookup "createdByModel").isSome = optStrTruthy model := by
  unfold _build_clipboard_payload at hp
  rw [hne, hnv] at hp
  cases ttl with
  | none =>
      simp only [Except.ok.injEq] at hp
      exact payload_lookup_facts value content_type ne nv name tool model [] p
        rfl rfl rfl (by rw [← hp]; simp)
  | some t =>
      by_cases ht : t ≤ 0
      · simp [ht] at hp
      · simp only [ht, if_false, Except.ok.injEq] at hp
        exact payload_lookup_facts value content_type ne nv name tool model
          [("ttlSeconds", .num t)] p rfl rfl rfl (by rw [← hp])

theorem clipboard_payload_shape_witness :
    _build_clipboard_payload "v" (some "n") "text/plain" (.enum .utf8) (.enum .priv)
        (some "t") none none =
      .ok [("value", .str "v"), ("contentType", .str "text/plain"),
           ("encoding", .str "utf-8"), ("visibility", .str "private"),
           ("source", .str "sdk"), ("name", .str "n"), ("createdByTool", .str "t")] ∧
    List.lookup "source"
        [("value", PyValue.str "v"), ("contentType", PyValue.str "text/plain"),
         ("encoding", PyValue.str "utf-8"), ("visibility", PyValue.str "private"),
         ("source", PyValue.str "sdk"), ("name", PyValue.str "n"),
         ("createdByTool", PyValue.str "t")] = some (.str ClipboardSource.sdk.value) ∧
    (List.lookup "createdByModel"
        [("value", PyValue.str "v"), ("contentType", PyValue.str "text/plain"),
         ("encoding", PyValue.str "utf-8"), ("visibility", PyValue.str "private"),
         ("source", PyValue.str "sdk"), ("name", PyValue.str "n"),
         ("createdByTool", PyValue.str "t")]).isSome = optStrTruthy none := by
  refine ⟨rfl, ?_, ?_⟩
  · exact (clipboard_payload_shape "v" "text/plain" (some "n") (.enum .utf8)
      (.enum .priv) (some "t") none none .utf8 .priv _ rfl rfl rfl).2.2.2.2.1
  · exact (clipboard_payload_shape "v" "text/plain" (some "n") (.enum .utf8)
      (.enum .priv) (some "t") none none .utf8 .priv _ rfl rfl rfl).2.2.2.2.2.2.2

/-- C5: a non-positive `ttl_seconds` makes both `set` and `push` fail with
the fixed `ValueError` uniformly in the transport (so no request reaches
the network), while a positive `ttl_seconds` is carried in the accepted
payload under the `ttlSeconds` key. -/
theorem clipboard_ttl_validation (t : Int) (value name content_type : String)
    (encoding : EncodingArg) (visibility : VisibilityArg)
    (tool model : Option String) (ne : ClipboardEncoding) (nv : ClipboardVisibility)
    (ht : t ≤ 0)
    (hne : _normalize_encoding encoding = .ok ne)
    (hnv : _normalize_visibility visibility = .ok nv) :
    (∀ transport : Transport,
      ClipboardService.set transport name value content_type encoding visibility
          tool model (some t) =
        .error (.valueError "ttl_seconds must be greater than 0 when provided")) ∧
    (∀ transport : Transport,
      ClipboardService.push transport value content_type encoding visibility
          tool model (some t) =
        .error (.valueError "ttl_seconds must be greater than 0 when provided")) ∧
    (∀ (t2 : Int) (p : List (String × PyValue)), 0 < t2 →
      _build_clipboard_payload value (some name) content_type encoding visibility
          tool model (some t2) = .ok p →
      p.lookup "ttlSeconds" = some (.num t2)) := by
  have hbuild : ∀ nm : Option String,
      _build_clipboard_payload value nm content_type encoding visibility
        tool model (some t) =
      .error "ttl_seconds must be greater than 0 when provided" := by
    intro nm
    unfold _build_clipboard_payload
    rw [hne, hnv]
    simp [ht]
  refine ⟨?_, ?_, ?_⟩
  · intro transport
    unfold ClipboardService.set
    rw [hbuild (some name)]
  · intro transport
    unfold ClipboardService.push
    rw [hbuild none]
  · intro t2 p ht2 hp
    unfold _build_clipboard_payload at hp
    rw [hne, hnv] at hp
    simp only [show ¬t2 ≤ 0 by omega, if_false, Except.ok.injEq] at hp
    subst hp
    simp [lookup_append, List.lookup,
      optEntry_lookup_ne "name" "ttlSeconds" (some name) (by decide),
      optEntry_lookup_ne "createdByTool" "ttlSeconds" tool (by decide),
      optEntry_lookup_ne "createdByModel" "ttlSeconds" model (by decide)]

theorem clipboard_ttl_validation_witness :
    ClipboardService.set (fun _ => []) "n" "v" "text/plain" (.enum .utf8)
        (.enum .priv) none none (some 0) =
      .error (.valueError "ttl_seconds must be greater than 0 when provided") ∧
    ClipboardService.push (fun _ => []) "v" "text/plain" (.enum .utf8)
        (.enum .priv) none none (some (-5)) =
      .error (.valueError "ttl_seconds must be greater than 0 when provided") ∧
    List.lookup "ttlSeconds"
        [("value", PyValue.str "v"), ("contentType", PyValue.str "text/plain"),
         ("encoding", PyValue.str "utf-8"), ("visibility", PyValue.str "private"),
         ("source", PyValue.str "sdk"), ("name", PyValue.str "n"),
         ("ttlSeconds", PyValue.num 5)] = some (.num 5) :=
  ⟨(clipboard_ttl_validation 0 "v" "n" "text/plain" (.enum .utf8) (.enum .priv)
      none none .utf8 .priv (by decide) rfl rfl).1 (fun _ => []),
   (clipboard_ttl_validation (-5) "v" "n" "text/plain" (.enum .utf8) (.enum .priv)
      none none .utf8 .priv (by decide) rfl rfl).2.1 (fun _ => []),
   (clipboard_ttl_validation 0 "v" "n" "text/plain" (.enum .utf8) (.enum .priv)
      none none .utf8 .priv (by decide) rfl rfl).2.2 5 _ (by decide) rfl⟩

/-- C6: `get` and `delete` with neither addressing argument, or with both,
fail with the pydantic validation error uniformly in the transport — no
request is made; the validators require exactly one of `name` / `idx`. -/
theorem clipboard_addressing_validation :
    (∀ transport : Transport,
      ClipboardService.get transport none none =
        .error (.valueError "Either name or idx must be provided")) ∧
    (∀ (transport : Transport) (n : String) (i : Int),
      ClipboardService.get transport (some n) (some i) =
        .error (.valueError "Only one of name or idx may be provided")) ∧
    (∀ transport : Transport,
      ClipboardService.delete transport none none =
        .error (.valueError "Either name or idx must be provided")) ∧
    (∀ (transport : Transport) (n : String) (i : Int),
      ClipboardService.delete transport (some n) (some i) =
        .error (.valueError "Only one of name or idx may be provided")) :=
  ⟨fun _ => rfl, fun _ _ _ => rfl, fun _ => rfl, fun _ _ _ => rfl⟩

/-- C7 counterexample: `get` parses leniently — on the failure envelope
with `success := false` and a server `error` message it returns absence
(`.ok none`) instead of raising the typed service error, refuting the
claim for "every clipboard operation". -/
theorem clipboard_lenient_failure_counterexample :
    ClipboardService.get
        (fun _ => [("success", .bool false), ("error", .str "boom")])
        (some "k") none = .ok none :=
  rfl

/-- C7 (amended): a `success == false` envelope raises the typed service
error carrying the server-supplied `error` value (or the built-in default
message when the key is absent) for the strict operations — strict entry
parsing as used by `set`/`push`, list parsing, and `clear_all` — while the
lenient operations `get`/`pop` return absence and delete-count parsing
returns 0. -/
theorem clipboard_failure_surfacing (data : List (String × PyValue)) (msg : String)
    (hfail : (dictGet data "success").truthy = false) :
    _parse_entry_response data msg true =
      .error (.pluggedInError (dictGetD data "error" (.str msg))) ∧
    _parse_list_response data =
      .error (.pluggedInError (dictGetD data "error"
        (.str "Failed to list clipboard entries"))) ∧
    _parse_entry_response data msg false = .ok none ∧
    _parse_delete_response data = .ok 0 ∧
    ∀ transport : Transport, transport clearAllRequest = data →
      ClipboardService.clear_all transport =
        some (.error (.pluggedInError (dictGetD data "error"
          (.str "Failed to clear clipboard")))) := by
  refine ⟨?_, ?_, ?_, ?_, ?_⟩
  · simp [_parse_entry_response, hfail]
  · simp [_parse_list_response, hfail]
  · simp [_parse_entry_response, hfail]
  · simp [_parse_delete_response, hfail]
  · intro transport h
    unfold ClipboardService.clear_all
    rw [h]
    simp [hfail]

theorem clipboard_failure_surfacing_witness :
    (dictGet [("success", PyValue.bool false), ("error", PyValue.str "boom")]
      "success").truthy = false ∧
    _parse_entry_response [("success", .bool false), ("error", .str "boom")]
        "Failed to set clipboard entry" true =
      .error (.pluggedInError (.str "boom")) ∧
    ClipboardService.clear_all
        (fun _ => [("success", .bool false), ("error", .str "boom")]) =
      some (.error (.pluggedInError (.str "boom"))) := by
  refine ⟨rfl, ?_, ?_⟩
  · exact (clipboard_failure_surfacing
      [("success", .bool false), ("error", .str "boom")]
      "Failed to set clipboard entry" rfl).1
  · exact (clipboard_failure_surfacing
      [("success", .bool false), ("error", .str "boom")]
      "Failed to set clipboard entry" rfl).2.2.2.2
      (fun _ => [("success", .bool false), ("error", .str "boom")]) rfl

/-- C8: delete-count parsing yields 0 on a falsy `success` envelope (so
`delete` on a nonexistent entry returns 0 and never raises), and otherwise
coerces the envelope's `deleted` value to an integer — booleans to 1/0,
integers unchanged — defaulting to 0 when the field is absent or null. -/
theorem delete_count_parsing (data : List (String × PyValue)) (b : Bool)
    (n : Int) (name : String) :
    ((dictGet data "success").truthy = false →
      _parse_delete_response data = .ok 0 ∧
      ClipboardService.delete (fun _ => data) (some name) none = .ok 0) ∧
    ((dictGet data "success").truthy = true →
      (data.lookup "deleted" = none → _parse_delete_response data = .ok 0) ∧
      (data.lookup "deleted" = some .null → _parse_delete_response data = .ok 0) ∧
      (data.lookup "deleted" = some (.bool b) →
        _parse_delete_response data = .ok (if b then 1 else 0)) ∧
      (data.lookup "deleted" = some (.num n) →
        _parse_delete_response data = .ok n)) := by
  constructor
  · intro hfail
    constructor
    · simp [_parse_delete_response, hfail]
    · simp [ClipboardService.delete, ClipboardDeleteRequest.validate,
        _parse_delete_response, hfail]
  · intro hsucc
    refine ⟨?_, ?_, ?_, ?_⟩ <;> intro hdel <;>
      simp [_parse_delete_response, dictGetD, hsucc, hdel, pyInt]

theorem delete_count_parsing_witness :
    (dictGet [("success", PyValue.bool true), ("deleted", PyValue.bool true)]
      "success").truthy = true ∧
    List.lookup "deleted"
        [("success", PyValue.bool true), ("deleted", PyValue.bool true)] =
      some (.bool true) ∧
    _parse_delete_response [("success", .bool true), ("deleted", .bool true)] =
      .ok (if true then 1 else 0) ∧
    ClipboardService.delete (fun _ => [("success", .bool false)])
        (some "missing") none = .ok 0 := by
  refine ⟨rfl, rfl, ?_, ?_⟩
  · exact ((delete_count_parsing
      [("success", .bool true), ("deleted", .bool true)] true 0 "missing").2
      rfl).2.2.1 rfl
  · exact ((delete_count_parsing [("success", .bool false)] true 0 "missing").1
      rfl).2

/-- C9: `clear_all` is a single bulk delete — one DELETE request flagged
`clearAll`, with the outcome a function of the transport's answer to that
request alone; a falsy `success` envelope raises the typed error, a truthy
one yields `deleted` equal to the server count (0 when absent) and
`failed := 0`; and every `ClearAllResult` satisfies
`total = deleted + failed` and `success` iff `failed = 0`. -/
theorem clear_all_contract (t1 t2 : Transport) (data : List (String × PyValue))
    (n : Int) (r : ClearAllResult) :
    (clearAllRequest.method = "DELETE" ∧
     clearAllRequest.path = "/api/clipboard" ∧
     clearAllRequest.body.lookup "clearAll" = some (.bool true)) ∧
    (t1 clearAllRequest = t2 clearAllRequest →
      ClipboardService.clear_all t1 = ClipboardService.clear_all t2) ∧
    (∀ transport : Transport, transport clearAllRequest = data →
      ((dictGet data "success").truthy = false →
        ClipboardService.clear_all transport =
          some (.error (.pluggedInError (dictGetD data "error"
            (.str "Failed to clear clipboard"))))) ∧
      ((dictGet data "success").truthy = true →
        dictGetD data "deleted" (.num 0) = .num n →
        ClipboardService.clear_all transport =
          some (.ok { deleted := n, failed := 0 }))) ∧
    (r.total = r.deleted + r.failed ∧ (r.success = true ↔ r.failed = 0)) := by
  refine ⟨⟨rfl, rfl, rfl⟩, ?_, ?_, rfl, ?_⟩
  · intro h
    unfold ClipboardService.clear_all
    rw [h]
  · intro transport h
    constructor
    · intro hfail
      unfold ClipboardService.clear_all
      rw [h]
      simp [hfail]
    · intro hsucc hdel
      unfold ClipboardService.clear_all
      rw [h]
      simp [hsucc, hdel]
  · simp [ClearAllResult.success]

theorem clear_all_contract_witness :
    (dictGet [("success", PyValue.bool true), ("deleted", PyValue.num 3)]
      "success").truthy = true ∧
    dictGetD [("success", PyValue.bool true), ("deleted", PyValue.num 3)]
      "deleted" (.num 0) = .num 3 ∧
    ClipboardService.clear_all
        (fun _ => [("success", .bool true), ("deleted", .num 3)]) =
      some (.ok { deleted := 3, failed := 0 }) ∧
    ClearAllResult.total { deleted := 3, failed := 0 } = 3 + 0 := by
  refine ⟨rfl, rfl, ?_, ?_⟩
  · exact ((clear_all_contract (fun _ => []) (fun _ => [])
      [("success", .bool true), ("deleted", .num 3)] 3
      { deleted := 3, failed := 0 }).2.2.1
      (fun _ => [("success", .bool true), ("deleted", .num 3)]) rfl).2 rfl rfl
  · exact (clear_all_contract (fun _ => []) (fun _ => [])
      [("success", .bool true), ("deleted", .num 3)] 3
      { deleted := 3, failed := 0 }).2.2.2.1

/-- C10: `find_relevant_documents` raises the typed error (server error or
the default message) whenever the normalized response has falsy `success`,
whatever the answer; on success it returns `documents[:limit]` with Python
slice semantics: a nonnegative limit takes at most that many leading
documents in order, limit 0 takes none, and a negative limit drops the
last `|limit|` documents. -/
theorem find_relevant_documents_limit (raw : PyValue) (r : RagResponse)
    (q : String) (limit : Int)
    (h : _transform_rag_response raw = some r) :
    (r.success.truthy = false →
      RagService.find_relevant_documents (fun _ => raw) q limit =
        some (.error (.pluggedInError
          (pyOr r.error (.str "Failed to search documents"))))) ∧
    (r.success.truthy = true →
      RagService.find_relevant_documents (fun _ => raw) q limit =
        some (.ok (pySliceTo r.documents limit)) ∧
      (0 ≤ limit →
        pySliceTo r.documents limit = r.documents.take limit.toNat ∧
        (pySliceTo r.documents limit).length ≤ limit.toNat) ∧
      (limit < 0 →
        pySliceTo r.documents limit =
          r.documents.take (r.documents.length - (-limit).toNat)) ∧
      (limit = 0 → pySliceTo r.documents limit = [])) := by
  constructor
  · intro hfail
    unfold RagService.find_relevant_documents RagService.query
    rw [h]
    simp [hfail]
  · intro hsucc
    refine ⟨?_, ?_, ?_, ?_⟩
    · unfold RagService.find_relevant_documents RagService.query
      rw [h]
      simp [hsucc]
    · intro hl
      refine ⟨by simp [pySliceTo, hl], ?_⟩
      simp [pySliceTo, hl, List.length_take]
    · intro hl
      simp [pySliceTo, show ¬(0 ≤ limit) by omega]
    · intro hl
      subst hl
      simp [pySliceTo]

theorem find_relevant_documents_limit_witness :
    _transform_rag_response
        (.obj [("documentIds",
          .arr [.str "a", .str "b", .str "c", .str "d", .str "e"])]) =
      some ragFiveDocs ∧
    ragFiveDocs.success.truthy = true ∧
    RagService.find_relevant_documents
        (fun _ => .obj [("documentIds",
          .arr [.str "a", .str "b", .str "c", .str "d", .str "e"])]) "q" 2 =
      some (.ok [{ id := .str "a", name := .str "Document 1" },
                 { id := .str "b", name := .str "Document 2" }]) := by
  refine ⟨rfl, rfl, ?_⟩
  exact ((find_relevant_documents_limit
    (.obj [("documentIds", .arr [.str "a", .str "b", .str "c", .str "d", .str "e"])])
    ragFiveDocs "q" 2 rfl).2 rfl).1
